import Mathlib

/-!
Shallow embedding of the Brand-Mention-Reputation-Tracker backend
(`src/backend`), covering the ingestion-aggregation-anomaly-alerting
pipeline: the source adapters and aggregator
(`app/services/aggregator.py`), the sentiment and topic scoring services
(`app/services/sentiment.py`, `app/services/clustering.py`), the anomaly
detectors and spike-alert creation (`app/services/alerts.py`), the alert
resolution endpoint (`app/api/alerts.py`), and the ingestion pipeline
(`news_ingest.py`).

Python floats are modelled as exact rationals (`ℚ`); the real-valued
standard deviation (a square root) lives in `ℝ` with a proven-equivalent
rational decision procedure so every definition stays executable.
Database sessions are modelled as explicit state (lists of rows), and
fallible operations return `Except`.
-/

namespace BrandTracker

/-- Persisted `Mention` row (`app/models/database.py`, class `Mention`).
Timestamps are abstracted as natural numbers counting hours, so
`date_trunc("hour", created_at)` is the identity on `created_at`. -/
structure Mention where
  source : String
  url : String
  author : String
  content : String
  sentiment : String
  sentiment_score : ℚ
  topic : String
  created_at : ℕ
  deriving Repr, DecidableEq

/-- Persisted `Alert` row (`app/models/database.py`, class `Alert`).
`is_active` is an integer column with default 1, as in the source. -/
structure Alert where
  id : ℕ
  alert_type : String
  title : String
  description : String
  severity : String
  is_active : ℕ
  created_at : ℕ
  resolved_at : Option ℕ
  deriving Repr, DecidableEq

/-- Result dict of `analyze_sentiment` (`app/services/sentiment.py`). -/
structure SentimentResult where
  sentiment : String
  confidence : ℚ
  deriving Repr, DecidableEq

/-- Raw output of the HuggingFace sentiment pipeline on one text: a label
and a score (`result["label"]`, `result["score"]`). -/
structure ModelOutput where
  label : String
  score : ℚ
  deriving Repr, DecidableEq

/-- Python `str.strip()`: remove leading and trailing whitespace. Defined
over the character list so that it is kernel-computable. -/
def pyStrip (s : String) : String :=
  ⟨((s.data.dropWhile Char.isWhitespace).reverse.dropWhile
      Char.isWhitespace).reverse⟩

/-- Sentiment scorer collaborator: `none` models the pipeline object being
unavailable (model failed to load at import time); `some f` models a
loaded pipeline, where `f text` is `Except.error` when the call raises
and `Except.ok` when it returns a result. -/
abbrev SentScorer : Type := Option (String → Except String ModelOutput)

/-- Topic embedding collaborator (`app/services/clustering.py`): `none`
models `embedding_model = None`; `some f` a loaded model whose `encode`
either raises (`Except.error`) or succeeds (`Except.ok`). -/
abbrev EmbModel : Type := Option (String → Except String Unit)

/-- Embedding of `analyze_sentiment` (`app/services/sentiment.py`
lines 26-63): no pipeline → neutral/0.5; otherwise score the text
truncated to 512 characters, mapping the lowercased model label to
positive/negative/neutral; any error → neutral/0.5. -/
def analyze_sentiment (scorer : SentScorer) (text : String) : SentimentResult :=
  match scorer with
  | none => { sentiment := "neutral", confidence := 1/2 }
  | some f =>
    match f (text.take 512) with
    | Except.error _ => { sentiment := "neutral", confidence := 1/2 }
    | Except.ok out =>
      let label := out.label.toLower
      let sentiment :=
        if label = "positive" then "positive"
        else if label = "negative" then "negative"
        else "neutral"
      { sentiment := sentiment, confidence := out.score }

/-- Embedding of `get_topic_for_mention` (`app/services/clustering.py`
lines 23-50): no embedding model → "uncategorized"; encoding raises →
"uncategorized"; otherwise the constant "general". -/
def get_topic_for_mention (model : EmbModel) (text : String) : String :=
  match model with
  | none => "uncategorized"
  | some f =>
    match f text with
    | Except.error _ => "uncategorized"
    | Except.ok _ => "general"

/-- Result of `detect_sentiment_shift` (`app/services/alerts.py`):
the shift classification (`none` models Python `None`), the
per-label distribution, and the percentages when total > 0. -/
structure ShiftResult where
  shift : Option String
  positive : ℕ
  negative : ℕ
  neutral : ℕ
  pctPositive : ℚ
  pctNegative : ℚ
  pctNeutral : ℚ
  deriving Repr, DecidableEq

/-- Core of `detect_sentiment_shift` (`app/services/alerts.py`
lines 106-133) on a per-label count distribution: total = 0 → shift None;
negative% > 50 → "negative"; negative% < 20 → "positive"; else
"neutral", with percentages `count / total * 100`. -/
def classify_shift (pos neg neu : ℕ) : ShiftResult :=
  let total : ℕ := pos + neg + neu
  if total = 0 then
    { shift := none, positive := pos, negative := neg, neutral := neu,
      pctPositive := 0, pctNegative := 0, pctNeutral := 0 }
  else
    let pp : ℚ := (pos : ℚ) / (total : ℚ) * 100
    let pn : ℚ := (neg : ℚ) / (total : ℚ) * 100
    let pu : ℚ := (neu : ℚ) / (total : ℚ) * 100
    let shift :=
      if pn > 50 then "negative"
      else if pn < 20 then "positive"
      else "neutral"
    { shift := some shift, positive := pos, negative := neg, neutral := neu,
      pctPositive := pp, pctNegative := pn, pctNeutral := pu }

/-- Arithmetic mean of a list of bucket counts, as `statistics.mean`
(`app/services/alerts.py` line 55). -/
def mean (counts : List ℚ) : ℚ := counts.sum / (counts.length : ℚ)

/-- Sum of squared deviations from the mean. -/
def sumSqDev (counts : List ℚ) : ℚ :=
  (counts.map (fun c => (c - mean counts) ^ 2)).sum

/-- Sample variance (denominator `n - 1`), the square of
`statistics.stdev`. -/
def sampleVar (counts : List ℚ) : ℚ :=
  sumSqDev counts / ((counts.length : ℚ) - 1)

/-- The variance whose square root is the stdev used by `detect_spikes`:
`statistics.stdev(counts) if len(counts) > 1 else 0`
(`app/services/alerts.py` line 56). -/
def varForStdev (counts : List ℚ) : ℚ :=
  if 1 < counts.length then sampleVar counts else 0

/-- Standard deviation used by `detect_spikes`: sample standard deviation
when at least two buckets exist, else 0. -/
noncomputable def stdev (counts : List ℚ) : ℝ :=
  if 1 < counts.length then Real.sqrt (sampleVar counts) else 0

/-- Spike threshold `mean + threshold_sigma * stdev`
(`app/services/alerts.py` line 57). -/
noncomputable def spikeThreshold (sigma : ℚ) (counts : List ℚ) : ℝ :=
  (mean counts : ℝ) + (sigma : ℝ) * stdev counts

/-- Executable decision procedure for `s * Real.sqrt v < d` over the
rationals (used so `detect_spikes` stays computable even though the
threshold involves a square root). -/
def exceedsB (d s v : ℚ) : Bool :=
  if 0 ≤ s then decide (0 < d ∧ s ^ 2 * v < d ^ 2)
  else decide (0 < d ∨ (0 ≤ d ∧ 0 < s ^ 2 * v) ∨ (d < 0 ∧ d ^ 2 < s ^ 2 * v))

/-- Spike finding dict produced by `detect_spikes`
(`app/services/alerts.py` lines 64-71). -/
structure SpikeFinding where
  timestamp : ℕ
  count : ℚ
  baseline : ℚ
  spike_percentage : ℚ
  deriving Repr, DecidableEq

/-- Percentage deviation reported for a spike:
`((count - mean) / mean * 100) if mean > 0 else 0`
(`app/services/alerts.py` line 63). -/
def spikePct (m c : ℚ) : ℚ := if 0 < m then (c - m) / m * 100 else 0

/-- Embedding of `detect_spikes` (`app/services/alerts.py` lines 32-74)
on the bucketed `(hour, count)` rows returned by the grouped query: empty
rows → no findings; otherwise flag every bucket whose count strictly
exceeds `mean + sigma * stdev`, reporting baseline and percentage
deviation. -/
def detect_spikes (sigma : ℚ) (results : List (ℕ × ℚ)) : List SpikeFinding :=
  if results = [] then []
  else
    let counts := results.map Prod.snd
    let m := mean counts
    let v := varForStdev counts
    (results.filter (fun r => exceedsB (r.2 - m) sigma v)).map
      (fun r => { timestamp := r.1, count := r.2, baseline := m,
                  spike_percentage := spikePct m r.2 })

/-- Embedding of the `resolve_alert` endpoint (`app/api/alerts.py`
lines 87-107): 404 when no alert has the id; otherwise set
`is_active = 0` and `resolved_at = now` on the matching alert,
unconditionally. -/
def resolve_alert (store : List Alert) (alert_id : ℕ) (now : ℕ) :
    Except String (List Alert) :=
  if store.any (fun a => a.id = alert_id) then
    Except.ok (store.map (fun a =>
      if a.id = alert_id then
        { a with is_active := 0, resolved_at := some now }
      else a))
  else
    Except.error "Alert not found"

/-- Python truthiness of an optional string: `None` and `""` are falsy. -/
def truthy (a : Option String) : Bool :=
  match a with
  | none => false
  | some s => s ≠ ""

/-- Python `a or b` for an optional string `a` and default `b`:
`None` and `""` fall through to the default. -/
def pyOr (a : Option String) (b : String) : String :=
  match a with
  | none => b
  | some s => if s = "" then b else s

/-- Normalized mention-candidate dict produced by the adapters and
consumed by `news_ingest.py`: keys source, url, author, content,
created_at (all read with `.get`, hence optional). -/
structure RawItem where
  source : Option String
  url : Option String
  author : Option String
  content : Option String
  created_at : Option String
  deriving Repr, DecidableEq

/-- Fields of a raw tweet used by `aggregate_from_twitter`
(`app/services/aggregator.py` lines 71-88). -/
structure Tweet where
  text : Option String
  id_str : Option String
  screen_name : Option String
  created_at : Option String
  deriving Repr, DecidableEq

/-- Fields of a raw Reddit post used by `aggregate_from_reddit`
(`app/services/aggregator.py` lines 155-176). `created_utc` is the
epoch timestamp when it is numeric. -/
structure RedditPost where
  selftext : Option String
  title : Option String
  permalink : String
  author : Option String
  created_utc : Option ℤ
  deriving Repr, DecidableEq

/-- Fields of a NewsAPI article used by `aggregate_from_news`
(`app/services/aggregator.py` lines 218-235). -/
structure Article where
  title : Option String
  description : Option String
  content : Option String
  url : Option String
  author : Option String
  source_name : Option String
  publishedAt : Option String
  deriving Repr, DecidableEq

/-- External inputs of `aggregate_from_twitter`: configured credentials
and the two HTTP exchanges (token, then search), each of which may raise
(`Except.error`); the token payload may lack `access_token`. -/
structure TwitterFetch where
  api_key : Option String
  api_secret : Option String
  tokenResp : Except String (Option String)
  searchResp : Except String (List Tweet)

/-- External inputs of `aggregate_from_reddit`, analogous to
`TwitterFetch`. -/
structure RedditFetch where
  client_id : Option String
  client_secret : Option String
  tokenResp : Except String (Option String)
  searchResp : Except String (List RedditPost)

/-- External inputs of `aggregate_from_news`: the configured API key and
the single HTTP exchange. -/
structure NewsFetch where
  api_key : Option String
  resp : Except String (List Article)

/-- Abstraction of `datetime.utcfromtimestamp(t).isoformat()` used by the
Reddit adapter to render an epoch timestamp. -/
def epochIso (t : ℤ) : String := toString t

/-- Embedding of `aggregate_from_twitter` (`app/services/aggregator.py`
lines 16-91): missing credentials, a failed token exchange, a missing
bearer token, or a failed search all yield `[]`; otherwise tweets with
non-empty stripped text are normalized. -/
def aggregate_from_twitter (t : TwitterFetch) : List RawItem :=
  if !(truthy t.api_key && truthy t.api_secret) then []
  else
    match t.tokenResp with
    | Except.error _ => []
    | Except.ok bearer =>
      if !truthy bearer then []
      else
        match t.searchResp with
        | Except.error _ => []
        | Except.ok statuses =>
          statuses.filterMap (fun tw =>
            let text := pyStrip (pyOr tw.text "")
            if text = "" then none
            else
              let tweet_id := pyOr tw.id_str ""
              some { source := some "twitter",
                     url := some (if tweet_id ≠ "" then
                       "https://twitter.com/i/web/status/" ++ tweet_id else ""),
                     author := some (pyOr tw.screen_name ""),
                     content := some text,
                     created_at := tw.created_at })

/-- Embedding of `aggregate_from_reddit` (`app/services/aggregator.py`
lines 94-179): same failure contract as Twitter; posts take `selftext`
falling back to `title`, skip empty text, and render `created_utc` when
numeric. -/
def aggregate_from_reddit (r : RedditFetch) : List RawItem :=
  if !(truthy r.client_id && truthy r.client_secret) then []
  else
    match r.tokenResp with
    | Except.error _ => []
    | Except.ok tok =>
      if !truthy tok then []
      else
        match r.searchResp with
        | Except.error _ => []
        | Except.ok children =>
          children.filterMap (fun post =>
            let text := pyStrip (pyOr post.selftext (pyOr post.title ""))
            if text = "" then none
            else
              some { source := some "reddit",
                     url := some ("https://www.reddit.com" ++ post.permalink),
                     author := some (pyOr post.author ""),
                     content := some text,
                     created_at := post.created_utc.map epochIso })

/-- Embedding of `aggregate_from_news` (`app/services/aggregator.py`
lines 182-242): missing API key or a failed request yields `[]`;
otherwise title, description and body are joined with spaces, items
whose joined content strips to empty are skipped, and the author falls
back to the source name. -/
def aggregate_from_news (n : NewsFetch) : List RawItem :=
  if !truthy n.api_key then []
  else
    match n.resp with
    | Except.error _ => []
    | Except.ok articles =>
      articles.filterMap (fun art =>
        let title := art.title.getD ""
        let description := art.description.getD ""
        let content := art.content.getD ""
        let full_content :=
          pyStrip (String.intercalate " "
            (([title, description, content]).filter (fun p => p ≠ "")))
        if full_content = "" then none
        else
          some { source := some "news",
                 url := some (art.url.getD ""),
                 author := some (pyOr art.author (art.source_name.getD "")),
                 content := some full_content,
                 created_at := art.publishedAt })

/-- Embedding of `aggregate_from_blogs` (`app/services/aggregator.py`
lines 245-257): a stub that always returns `[]`. -/
def aggregate_from_blogs : List RawItem := []

/-- Embedding of `aggregate_all_sources` (`app/services/aggregator.py`
lines 260-287): run the four adapters (concurrently via
`asyncio.gather`, whose result order is argument order) and flatten in
registration order Twitter, Reddit, news, blogs. -/
def aggregate_all_sources (t : TwitterFetch) (r : RedditFetch) (n : NewsFetch) :
    List RawItem :=
  aggregate_from_twitter t ++ aggregate_from_reddit r ++
    aggregate_from_news n ++ aggregate_from_blogs

/-- Database state visible to the pipeline: the committed `mentions` and
`alerts` tables. -/
structure DBState where
  mentions : List Mention
  alerts : List Alert
  deriving Repr, DecidableEq

/-- Hourly bucketed mention counts of `detect_spikes`
(`app/services/alerts.py` lines 36-45): group mentions with
`created_at >= now - window_hours` by hour and order by hour. With
timestamps counted in hours, `date_trunc("hour", ·)` is the identity. -/
def hourlyBuckets (window_hours now : ℕ) (mentions : List Mention) :
    List (ℕ × ℚ) :=
  let cutoff := now - window_hours
  let recent := mentions.filter (fun m => cutoff ≤ m.created_at)
  let hours := ((recent.map (fun m => m.created_at)).dedup).insertionSort (· ≤ ·)
  hours.map (fun h =>
    (h, ((recent.filter (fun m => m.created_at = h)).length : ℚ)))

/-- Embedding of `detect_spikes` reading the database
(`app/services/alerts.py` lines 16-78): the statistics of
`detect_spikes` applied to the hourly buckets of the window. -/
def detect_spikes_db (sigma : ℚ) (window_hours now : ℕ)
    (mentions : List Mention) : List SpikeFinding :=
  detect_spikes sigma (hourlyBuckets window_hours now mentions)

/-- Embedding of `detect_sentiment_shift` reading the database
(`app/services/alerts.py` lines 81-133): count the windowed mentions per
sentiment label (labels outside positive/negative/neutral are dropped by
the `if sentiment in sentiment_dist` guard) and classify. -/
def detect_sentiment_shift_db (window_hours now : ℕ)
    (mentions : List Mention) : ShiftResult :=
  let cutoff := now - window_hours
  let recent := mentions.filter (fun m => cutoff ≤ m.created_at)
  classify_shift
    ((recent.filter (fun m => m.sentiment == "positive")).length)
    ((recent.filter (fun m => m.sentiment == "negative")).length)
    ((recent.filter (fun m => m.sentiment == "neutral")).length)

/-- Embedding of `create_spike_alert` (`app/services/alerts.py`
lines 140-172), success path: an Alert of type "spike", severity "high"
when the percentage deviation exceeds 100 and "medium" otherwise, active
by column default, with the autoincrement id passed explicitly. -/
def create_spike_alert (nextId now : ℕ) (f : SpikeFinding) : Alert :=
  { id := nextId,
    alert_type := "spike",
    title := "Mention Spike Detected",
    description := "Detected " ++ toString f.spike_percentage ++
      "% spike in mentions",
    severity := if f.spike_percentage > 100 then "high" else "medium",
    is_active := 1,
    created_at := now,
    resolved_at := none }

/-- Whether the store holds an active alert of the given type: the
filter-by-active-and-type read used for deduplication (spec section 6). -/
def hasActiveAlertOfType (store : List Alert) (t : String) : Bool :=
  store.any (fun a => a.alert_type == t && a.is_active == 1)

/-- Number of active alerts of a given type in the store. -/
def countActiveOfType (store : List Alert) (t : String) : ℕ :=
  (store.filter (fun a => a.alert_type == t && a.is_active == 1)).length

/-- Modelled from the spec: the spike half of `run_basic_alert_checks`,
which `news_ingest.py` imports from `app.services.alerts` but which is
missing from `src/backend/app/services/alerts.py`. Per spec section 4.6,
for each SpikeFinding the AlertManager creates an Alert of type "spike"
unless an active Alert of the same type already exists (check-then-insert
dedup). -/
def handleSpikeFindings (nextId now : ℕ) (findings : List SpikeFinding)
    (store : List Alert) : List Alert :=
  findings.foldl (fun acc f =>
    if hasActiveAlertOfType acc "spike" then acc
    else acc ++ [create_spike_alert nextId now f]) store

/-- Modelled from the spec: severity of a sentiment-shift alert, a
monotone map of how far the negative percentage exceeds 50 (spec
section 4.6: "medium below 70%, high above"). -/
def severityForShift (negPct : ℚ) : String :=
  if negPct > 70 then "high" else "medium"

/-- Modelled from the spec: the sentiment-shift alert built by the
missing `run_basic_alert_checks` for a window classified "negative". -/
def create_shift_alert (nextId now : ℕ) (negPct : ℚ) : Alert :=
  { id := nextId,
    alert_type := "sentiment_shift",
    title := "Negative Sentiment Shift",
    description := "Negative sentiment at " ++ toString negPct ++ "%",
    severity := severityForShift negPct,
    is_active := 1,
    created_at := now,
    resolved_at := none }

/-- Modelled from the spec: the sentiment half of the missing
`run_basic_alert_checks`; only a "negative" classification escalates to
an Alert (spec section 4.5), with the same per-type dedup check. -/
def handleShiftFinding (nextId now : ℕ) (shift : ShiftResult)
    (store : List Alert) : List Alert :=
  if shift.shift == some "negative" &&
      !hasActiveAlertOfType store "sentiment_shift" then
    store ++ [create_shift_alert nextId now shift.pctNegative]
  else store

/-- Modelled from the spec: `run_basic_alert_checks(db)`, imported by
`news_ingest.py` line 28 from `app.services.alerts` but absent from that
file in src. Per the `news_ingest.py` comment it runs "simple alert
checks (spikes + negative sentiment)": it invokes the two detectors on
the persisted mentions and hands the findings to the deduplicating
AlertManager of spec section 4.6. Autoincrement ids are modelled by the
explicit `nextId` (the shift alert, created at most once per run after
the at-most-one spike alert, takes `nextId + 1`). -/
def run_basic_alert_checks (sigma : ℚ) (window_hours nextId now : ℕ)
    (db : DBState) : DBState :=
  let spikes := detect_spikes_db sigma window_hours now db.mentions
  let shift := detect_sentiment_shift_db window_hours now db.mentions
  let alertsAfter :=
    handleShiftFinding (nextId + 1) now shift
      (handleSpikeFindings nextId now spikes db.alerts)
  { db with alerts := alertsAfter }

/-- Enrichment body of the ingestion loop (`news_ingest.py`
lines 131-167): skip items whose content strips to empty, score
sentiment and topic, parse `created_at` with fallback to `now` when
absent, falsy, or unparseable, and build the Mention row. `parseTs`
models `dateutil.parser.isoparse` (`none` = the parse raised). -/
def enrich_item (scorer : SentScorer) (emodel : EmbModel)
    (parseTs : String → Option ℕ) (now : ℕ) (item : RawItem) :
    Option Mention :=
  let content := pyStrip (item.content.getD "")
  if content = "" then none
  else
    let s := analyze_sentiment scorer content
    let topic := get_topic_for_mention emodel content
    let created_at :=
      if truthy item.created_at then
        (parseTs (item.created_at.getD "")).getD now
      else now
    some { source := pyOr item.source "news",
           url := item.url.getD "",
           author := pyOr item.author "Unknown",
           content := content,
           sentiment := s.sentiment,
           sentiment_score := s.confidence,
           topic := topic,
           created_at := created_at }

/-- Observable outcome of a successful ingestion run: the number of
mentions written and whether the alert checks were invoked. -/
structure IngestOutcome where
  count : ℕ
  alertsRan : Bool
  deriving Repr, DecidableEq

/-- Embedding of `ingest_news_mentions` (`news_ingest.py` lines 80-181)
from the point where aggregation has produced `articles`: zero articles →
early return, nothing touched; otherwise enrich every article with
non-empty content; when at least one row was built, commit the batch in
one transaction and then run the alert checks. A commit failure
(`commitOk = false`) rolls the whole batch back, leaves the database
unchanged, and re-raises (`Except.error`). -/
def ingest_news_mentions (scorer : SentScorer) (emodel : EmbModel)
    (parseTs : String → Option ℕ) (sigma : ℚ)
    (window_hours nextId now : ℕ) (commitOk : Bool)
    (articles : List RawItem) (db : DBState) :
    DBState × Except String IngestOutcome :=
  if articles = [] then
    (db, Except.ok { count := 0, alertsRan := false })
  else
    let newMentions := articles.filterMap (enrich_item scorer emodel parseTs now)
    let created_count := newMentions.length
    if created_count = 0 then
      (db, Except.ok { count := 0, alertsRan := false })
    else if commitOk then
      let committed : DBState := { db with mentions := db.mentions ++ newMentions }
      (run_basic_alert_checks sigma window_hours nextId now committed,
       Except.ok { count := created_count, alertsRan := true })
    else
      (db, Except.error "commit failed")

/-- Embedding of the `run_ingestion` endpoint (`app/api/ingest.py`
lines 17-31): a successful pipeline run answers status "ok"; an
exception becomes a 500 "Ingestion failed". -/
def run_ingestion (r : Except String IngestOutcome) : Except String String :=
  match r with
  | Except.ok _ => Except.ok "ok"
  | Except.error _ => Except.error "Ingestion failed"

def alertResolvedEx : Alert :=
  { id := 1, alert_type := "spike", title := "Mention Spike Detected",
    description := "old", severity := "high", is_active := 0,
    created_at := 0, resolved_at := some 5 }

def mEx (h : ℕ) : Mention :=
  { source := "news", url := "", author := "a", content := "c",
    sentiment := "negative", sentiment_score := 1/2, topic := "general",
    created_at := h }

def dbEx : DBState := { mentions := [mEx 0, mEx 1, mEx 1], alerts := [] }

def itemEx : RawItem :=
  { source := some "news", url := some "u", author := some "b",
    content := some "bad service", created_at := none }

/-- Enriched Mention produced from `itemEx` when the sentiment scorer
errors on the item and the embedding model is unavailable. -/
def mentionEx : Mention :=
  { source := "news", url := "u", author := "b", content := "bad service",
    sentiment := "neutral", sentiment_score := 1/2, topic := "uncategorized",
    created_at := 5 }

theorem sumSqDev_nonneg (counts : List ℚ) : 0 ≤ sumSqDev counts := by
  unfold sumSqDev
  apply List.sum_nonneg
  intro x hx
  simp only [List.mem_map] at hx
  obtain ⟨c, _, rfl⟩ := hx
  positivity

theorem varForStdev_nonneg (counts : List ℚ) : 0 ≤ varForStdev counts := by
  unfold varForStdev
  split
  · rename_i h
    unfold sampleVar
    apply div_nonneg (sumSqDev_nonneg counts)
    have : (2 : ℚ) ≤ (counts.length : ℚ) := by exact_mod_cast h
    linarith
  · exact le_refl 0

theorem exceedsB_iff (d s v : ℚ) (hv : 0 ≤ v) :
    exceedsB d s v = true ↔ (s : ℝ) * Real.sqrt (v : ℝ) < (d : ℝ) := by
  have hv' : (0:ℝ) ≤ (v:ℝ) := by exact_mod_cast hv
  have hw : (0:ℝ) ≤ Real.sqrt (v:ℝ) := Real.sqrt_nonneg _
  have hw2 : Real.sqrt (v:ℝ) ^ 2 = (v:ℝ) := Real.sq_sqrt hv'
  set w := Real.sqrt (v:ℝ) with hwdef
  unfold exceedsB
  by_cases hs : 0 ≤ s
  · simp only [if_pos hs, decide_eq_true_eq]
    have hs' : (0:ℝ) ≤ (s:ℝ) := by exact_mod_cast hs
    constructor
    · rintro ⟨hd, hlt⟩
      have hd' : (0:ℝ) < (d:ℝ) := by exact_mod_cast hd
      have hlt' : (s:ℝ) ^ 2 * (v:ℝ) < (d:ℝ) ^ 2 := by exact_mod_cast hlt
      by_contra hcon
      push_neg at hcon
      nlinarith [mul_nonneg hs' hw]
    · intro h
      have hsw : (0:ℝ) ≤ (s:ℝ) * w := mul_nonneg hs' hw
      have hd' : (0:ℝ) < (d:ℝ) := lt_of_le_of_lt hsw h
      refine ⟨by exact_mod_cast hd', ?_⟩
      have : (s:ℝ) ^ 2 * (v:ℝ) < (d:ℝ) ^ 2 := by nlinarith
      exact_mod_cast this
  · push_neg at hs
    simp only [if_neg (not_le.mpr hs), decide_eq_true_eq]
    have hs' : (s:ℝ) < 0 := by exact_mod_cast hs
    have hsw2 : ((s:ℝ) * w) ^ 2 = (s:ℝ) ^ 2 * (v:ℝ) := by
      rw [mul_pow, hw2]
    constructor
    · rintro (hd | ⟨hd0, hsv⟩ | ⟨hdneg, hlt⟩)
      · have hd' : (0:ℝ) < (d:ℝ) := by exact_mod_cast hd
        have : (s:ℝ) * w ≤ 0 := mul_nonpos_of_nonpos_of_nonneg hs'.le hw
        linarith
      · have hd0' : (0:ℝ) ≤ (d:ℝ) := by exact_mod_cast hd0
        have hsv' : (0:ℝ) < (s:ℝ) ^ 2 * (v:ℝ) := by exact_mod_cast hsv
        have hvpos : (0:ℝ) < (v:ℝ) := by nlinarith [sq_nonneg (s:ℝ)]
        have hwpos : 0 < w := Real.sqrt_pos.mpr hvpos
        have : (s:ℝ) * w < 0 := mul_neg_of_neg_of_pos hs' hwpos
        linarith
      · have hdneg' : (d:ℝ) < 0 := by exact_mod_cast hdneg
        have hlt' : (d:ℝ) ^ 2 < (s:ℝ) ^ 2 * (v:ℝ) := by exact_mod_cast hlt
        have hvpos : (0:ℝ) < (v:ℝ) := by nlinarith [sq_nonneg (d:ℝ), sq_nonneg (s:ℝ)]
        have hwpos : 0 < w := Real.sqrt_pos.mpr hvpos
        have hswneg : (s:ℝ) * w < 0 := mul_neg_of_neg_of_pos hs' hwpos
        by_contra hcon
        push_neg at hcon
        nlinarith
    · intro h
      rcases lt_trichotomy d 0 with hd | hd | hd
      · have hd' : (d:ℝ) < 0 := by exact_mod_cast hd
        have hswneg : (s:ℝ) * w < 0 := lt_trans h hd'
        have hwpos : 0 < w := by
          rcases eq_or_lt_of_le hw with he | hp
          · exfalso; rw [← he] at hswneg; simp at hswneg
          · exact hp
        refine Or.inr (Or.inr ⟨hd, ?_⟩)
        have : (d:ℝ) ^ 2 < (s:ℝ) ^ 2 * (v:ℝ) := by nlinarith
        exact_mod_cast this
      · subst hd
        have h0 : (s:ℝ) * w < 0 := by simpa using h
        have hwpos : 0 < w := by
          rcases eq_or_lt_of_le hw with he | hp
          · exfalso; rw [← he] at h0; simp at h0
          · exact hp
        have hvpos : (0:ℝ) < (v:ℝ) := by nlinarith
        refine Or.inr (Or.inl ⟨le_refl 0, ?_⟩)
        have hs0 : (s:ℝ) ≠ 0 := ne_of_lt hs'
        have : (0:ℝ) < (s:ℝ) ^ 2 * (v:ℝ) := mul_pos (by positivity) hvpos
        exact_mod_cast this
      · exact Or.inl hd

theorem exceedsB_iff_threshold (sigma : ℚ) (counts : List ℚ) (c : ℚ) :
    exceedsB (c - mean counts) sigma (varForStdev counts) = true ↔
      spikeThreshold sigma counts < (c : ℝ) := by
  rw [exceedsB_iff _ _ _ (varForStdev_nonneg counts)]
  have hsq : Real.sqrt ((varForStdev counts : ℚ) : ℝ) = stdev counts := by
    unfold varForStdev stdev
    split
    · rfl
    · push_cast
      exact Real.sqrt_zero
  rw [hsq]
  unfold spikeThreshold
  constructor
  · intro h
    push_cast at h
    linarith
  · intro h
    push_cast
    linarith

/-- C3 (amended): for every list of bucketed counts and every sigma, spike
detection reports baseline = arithmetic mean, flags exactly the buckets
whose count strictly exceeds `mean + sigma * stdev` (stdev being the
sample standard deviation when at least two buckets exist and 0
otherwise), reports percentage deviation `(count - mean) / mean * 100`
when mean > 0 and 0 otherwise, and yields no findings (not an error) on
zero buckets. With sigma = 2.5, neither `[10,10,10,10,50]` nor
`[10,10,10,10,10,10,100]` has a flagged bucket: in the second list the
threshold is 160/7 + 2.5·√(8100/7) ≈ 107.9, which exceeds 100. -/
theorem detect_spikes_spec :
    (∀ (sigma : ℚ) (results : List (ℕ × ℚ)),
      (results = [] → detect_spikes sigma results = []) ∧
      (∀ f ∈ detect_spikes sigma results,
        (f.timestamp, f.count) ∈ results ∧
        f.baseline = mean (results.map Prod.snd) ∧
        f.spike_percentage =
          (if 0 < mean (results.map Prod.snd) then
            (f.count - mean (results.map Prod.snd)) / mean (results.map Prod.snd) * 100
          else 0) ∧
        spikeThreshold sigma (results.map Prod.snd) < (f.count : ℝ)) ∧
      (∀ hc ∈ results,
        spikeThreshold sigma (results.map Prod.snd) < (hc.2 : ℝ) →
        ({ timestamp := hc.1, count := hc.2,
           baseline := mean (results.map Prod.snd),
           spike_percentage := spikePct (mean (results.map Prod.snd)) hc.2 } :
          SpikeFinding) ∈ detect_spikes sigma results) ∧
      (results.length ≤ 1 → stdev (results.map Prod.snd) = 0) ∧
      (1 < results.length →
        stdev (results.map Prod.snd) ^ 2 =
          ((sumSqDev (results.map Prod.snd) / ((results.length : ℚ) - 1) : ℚ) : ℝ)) ∧
      mean (results.map Prod.snd) =
        (results.map Prod.snd).sum / ((results.length : ℚ))) ∧
    detect_spikes (5/2) [(0,10),(1,10),(2,10),(3,10),(4,50)] = [] ∧
    detect_spikes (5/2) [(0,10),(1,10),(2,10),(3,10),(4,10),(5,10),(6,100)] = [] := by
  refine ⟨fun sigma results => ⟨?_, ?_, ?_, ?_, ?_, ?_⟩, ?_, ?_⟩
  · intro h; subst h; rfl
  · intro f hf
    unfold detect_spikes at hf
    by_cases hres : results = []
    · simp [hres] at hf
    · simp only [if_neg hres, List.mem_map, List.mem_filter] at hf
      obtain ⟨r, ⟨hrmem, hrpred⟩, rfl⟩ := hf
      refine ⟨by simpa using hrmem, rfl, ?_, ?_⟩
      · simp [spikePct]
      · exact (exceedsB_iff_threshold sigma (results.map Prod.snd) r.2).mp hrpred
  · intro hc hmem hthr
    unfold detect_spikes
    have hres : results ≠ [] := by
      intro h; subst h; simp at hmem
    simp only [if_neg hres, List.mem_map, List.mem_filter]
    exact ⟨hc, ⟨hmem, (exceedsB_iff_threshold sigma (results.map Prod.snd) hc.2).mpr hthr⟩, rfl⟩
  · intro hlen
    unfold stdev
    rw [if_neg]
    simp only [List.length_map]
    omega
  · intro hlen
    unfold stdev
    rw [if_pos (by simpa using hlen)]
    rw [Real.sq_sqrt]
    · unfold sampleVar
      push_cast [List.length_map]
      ring
    · have h2 : 1 < (results.map Prod.snd).length := by simpa using hlen
      have := varForStdev_nonneg (results.map Prod.snd)
      unfold varForStdev at this
      rw [if_pos h2] at this
      exact_mod_cast this
  · unfold mean
    rw [List.length_map]
  · norm_num [detect_spikes, exceedsB, mean, varForStdev, sampleVar, sumSqDev, spikePct, List.filter]
  · norm_num [detect_spikes, exceedsB, mean, varForStdev, sampleVar, sumSqDev, spikePct, List.filter]

/-- Witness for `detect_spikes_spec`: instantiates the
flags-all-exceeding-buckets implication at buckets `[(0,0),(1,100)]` with
sigma = 0, where the 100-count bucket exceeds the threshold 50. -/
theorem detect_spikes_spec_witness :
    ((1:ℕ), (100:ℚ)) ∈ ([(0,0),(1,100)] : List (ℕ × ℚ)) ∧
    spikeThreshold 0 (([(0,0),(1,100)] : List (ℕ × ℚ)).map Prod.snd) < (((100:ℚ)) : ℝ) ∧
    ({ timestamp := 1, count := 100,
       baseline := mean (([(0,0),(1,100)] : List (ℕ × ℚ)).map Prod.snd),
       spike_percentage := spikePct (mean (([(0,0),(1,100)] : List (ℕ × ℚ)).map Prod.snd)) 100 } :
      SpikeFinding) ∈ detect_spikes 0 [(0,0),(1,100)] := by
  have hmem : ((1:ℕ),(100:ℚ)) ∈ ([(0,0),(1,100)] : List (ℕ × ℚ)) := by simp
  have hthr : spikeThreshold 0 (([(0,0),(1,100)] : List (ℕ × ℚ)).map Prod.snd) < (((100:ℚ)) : ℝ) := by
    unfold spikeThreshold
    norm_num [mean]
  exact ⟨hmem, hthr, (detect_spikes_spec.1 0 [(0,0),(1,100)]).2.2.1 ⟨1,100⟩ hmem hthr⟩

/-- C4: sentiment-shift classification over a per-label count
distribution: total = 0 → shift none; negative percentage > 50 →
"negative"; negative percentage < 20 → "positive"; otherwise "neutral"
(the percentage comparisons stated via the equivalent integer
inequalities, with the reported percentage equal to
`negative / total * 100`); in particular counts
(positive 10, negative 60, neutral 30) classify as "negative". -/
theorem classify_shift_spec :
    (∀ pos neg neu : ℕ,
      (pos + neg + neu = 0 → (classify_shift pos neg neu).shift = none) ∧
      (0 < pos + neg + neu →
        ((classify_shift pos neg neu).shift = some "negative" ↔
          50 * (pos + neg + neu) < 100 * neg)) ∧
      (0 < pos + neg + neu →
        ((classify_shift pos neg neu).shift = some "positive" ↔
          100 * neg ≤ 50 * (pos + neg + neu) ∧ 100 * neg < 20 * (pos + neg + neu))) ∧
      (0 < pos + neg + neu →
        ((classify_shift pos neg neu).shift = some "neutral" ↔
          100 * neg ≤ 50 * (pos + neg + neu) ∧ 20 * (pos + neg + neu) ≤ 100 * neg)) ∧
      (0 < pos + neg + neu →
        (classify_shift pos neg neu).pctNegative =
          (neg : ℚ) / ((pos + neg + neu : ℕ) : ℚ) * 100)) ∧
    (classify_shift 10 60 30).shift = some "negative" := by
  constructor
  · intro pos neg neu
    by_cases hT : pos + neg + neu = 0
    · refine ⟨fun _ => by simp [classify_shift, hT], ?_, ?_, ?_, ?_⟩ <;> (intro h; omega)
    · have hTpos : 0 < pos + neg + neu := Nat.pos_of_ne_zero hT
      have hTQ : (0:ℚ) < ((pos + neg + neu : ℕ) : ℚ) := by exact_mod_cast hTpos
      have k1 : (50 < (neg:ℚ) / ((pos + neg + neu : ℕ) : ℚ) * 100) ↔
          (50 * (pos + neg + neu) < 100 * neg) := by
        rw [div_mul_eq_mul_div, lt_div_iff₀ hTQ,
          show ((50:ℚ) * ((pos + neg + neu : ℕ) : ℚ)) = (((50 * (pos + neg + neu) : ℕ)) : ℚ) by
            push_cast; ring,
          show ((neg:ℚ) * 100) = (((100 * neg : ℕ)) : ℚ) by push_cast; ring,
          Nat.cast_lt]
      have k2 : ((neg:ℚ) / ((pos + neg + neu : ℕ) : ℚ) * 100 < 20) ↔
          (100 * neg < 20 * (pos + neg + neu)) := by
        rw [div_mul_eq_mul_div, div_lt_iff₀ hTQ,
          show ((20:ℚ) * ((pos + neg + neu : ℕ) : ℚ)) = (((20 * (pos + neg + neu) : ℕ)) : ℚ) by
            push_cast; ring,
          show ((neg:ℚ) * 100) = (((100 * neg : ℕ)) : ℚ) by push_cast; ring,
          Nat.cast_lt]
      refine ⟨fun h => absurd h hT, ?_, ?_, ?_, ?_⟩
      · intro _
        unfold classify_shift
        rw [if_neg hT]
        dsimp only
        split_ifs with h1 h2
        · have hn := k1.mp h1
          simp only [Option.some.injEq]
          exact ⟨fun _ => hn, fun _ => trivial⟩
        · have hn1 := k1.not.mp h1
          simp only [Option.some.injEq]
          exact ⟨fun h => absurd h (by decide), fun h => absurd h (by omega)⟩
        · have hn1 := k1.not.mp h1
          simp only [Option.some.injEq]
          exact ⟨fun h => absurd h (by decide), fun h => absurd h (by omega)⟩
      · intro _
        unfold classify_shift
        rw [if_neg hT]
        dsimp only
        split_ifs with h1 h2
        · have hn := k1.mp h1
          simp only [Option.some.injEq]
          exact ⟨fun h => absurd h (by decide), fun h => absurd h (by omega)⟩
        · have hn1 := k1.not.mp h1
          have hn2 := k2.mp h2
          simp only [Option.some.injEq]
          exact ⟨fun _ => by omega, fun _ => trivial⟩
        · have hn1 := k1.not.mp h1
          have hn2 := k2.not.mp h2
          simp only [Option.some.injEq]
          exact ⟨fun h => absurd h (by decide), fun h => absurd h (by omega)⟩
      · intro _
        unfold classify_shift
        rw [if_neg hT]
        dsimp only
        split_ifs with h1 h2
        · have hn := k1.mp h1
          simp only [Option.some.injEq]
          exact ⟨fun h => absurd h (by decide), fun h => absurd h (by omega)⟩
        · have hn1 := k1.not.mp h1
          have hn2 := k2.mp h2
          simp only [Option.some.injEq]
          exact ⟨fun h => absurd h (by decide), fun h => absurd h (by omega)⟩
        · have hn1 := k1.not.mp h1
          have hn2 := k2.not.mp h2
          simp only [Option.some.injEq]
          exact ⟨fun _ => ⟨by omega, by omega⟩, fun _ => trivial⟩
      · intro _
        unfold classify_shift
        rw [if_neg hT]
  · norm_num [classify_shift]

/-- Witness for `classify_shift_spec` at the distribution
(10, 60, 30). -/
theorem classify_shift_spec_witness :
    0 < 10 + 60 + 30 ∧ 50 * (10 + 60 + 30) < 100 * 60 ∧
    (classify_shift 10 60 30).shift = some "negative" :=
  ⟨by norm_num, by norm_num,
    ((classify_shift_spec.1 10 60 30).2.1 (by norm_num)).mpr (by norm_num)⟩

theorem aggregate_from_twitter_error (t : TwitterFetch) (e : String) :
    aggregate_from_twitter { t with searchResp := Except.error e } = [] := by
  unfold aggregate_from_twitter
  dsimp only
  split
  · rfl
  · cases t.tokenResp with
    | error _ => rfl
    | ok bearer =>
      dsimp only
      split
      · rfl
      · rfl

theorem aggregate_from_reddit_error (r : RedditFetch) (e : String) :
    aggregate_from_reddit { r with searchResp := Except.error e } = [] := by
  unfold aggregate_from_reddit
  dsimp only
  split
  · rfl
  · cases r.tokenResp with
    | error _ => rfl
    | ok tok =>
      dsimp only
      split
      · rfl
      · rfl

theorem aggregate_from_news_error (n : NewsFetch) (e : String) :
    aggregate_from_news { n with resp := Except.error e } = [] := by
  unfold aggregate_from_news
  dsimp only
  split
  · rfl
  · rfl

/-- C5: the aggregator output equals the concatenation of the four
adapters' outputs in registration order (Twitter, Reddit, news, blogs),
each list in its internal order; an adapter whose search request fails
contributes the empty list while every other adapter's results are still
present and complete; aggregation is a total function (never raises). -/
theorem aggregate_all_sources_spec :
    (∀ (t : TwitterFetch) (r : RedditFetch) (n : NewsFetch),
      aggregate_all_sources t r n =
        aggregate_from_twitter t ++ aggregate_from_reddit r ++
          aggregate_from_news n ++ aggregate_from_blogs) ∧
    (∀ (t : TwitterFetch) (r : RedditFetch) (n : NewsFetch) (e : String),
      aggregate_from_twitter { t with searchResp := Except.error e } = [] ∧
      aggregate_all_sources { t with searchResp := Except.error e } r n =
        aggregate_from_reddit r ++ aggregate_from_news n) ∧
    (∀ (t : TwitterFetch) (r : RedditFetch) (n : NewsFetch) (e : String),
      aggregate_from_reddit { r with searchResp := Except.error e } = [] ∧
      aggregate_all_sources t { r with searchResp := Except.error e } n =
        aggregate_from_twitter t ++ aggregate_from_news n) ∧
    (∀ (t : TwitterFetch) (r : RedditFetch) (n : NewsFetch) (e : String),
      aggregate_from_news { n with resp := Except.error e } = [] ∧
      aggregate_all_sources t r { n with resp := Except.error e } =
        aggregate_from_twitter t ++ aggregate_from_reddit r) := by
  refine ⟨fun _ _ _ => rfl, fun t r n e => ⟨aggregate_from_twitter_error t e, ?_⟩,
    fun t r n e => ⟨aggregate_from_reddit_error r e, ?_⟩,
    fun t r n e => ⟨aggregate_from_news_error n e, ?_⟩⟩
  · unfold aggregate_all_sources aggregate_from_blogs
    rw [aggregate_from_twitter_error t e]
    simp
  · unfold aggregate_all_sources aggregate_from_blogs
    rw [aggregate_from_reddit_error r e]
    simp
  · unfold aggregate_all_sources aggregate_from_blogs
    rw [aggregate_from_news_error n e]
    simp

/-- Counterexample to C9 as stated: resolving an already-resolved alert
(`resolved_at = some 5`) at time 7 is not a no-op — the endpoint
unconditionally overwrites `resolved_at` with the new current time. -/
theorem resolve_alert_not_noop :
    resolve_alert [alertResolvedEx] 1 7 ≠ Except.ok [alertResolvedEx] := by
  intro h
  unfold resolve_alert at h
  simp [alertResolvedEx] at h

/-- C9 (amended): for every existing alert, resolve succeeds (resolving
an already-resolved alert is not an error), sets `is_active = 0` and
`resolved_at` to the current time on the matching alert — overwriting any
earlier `resolved_at` rather than leaving it unchanged — and leaves every
other alert untouched. -/
theorem resolve_alert_spec (store : List Alert) (alert_id now : ℕ)
    (h : ∃ a ∈ store, a.id = alert_id) :
    ∃ store', resolve_alert store alert_id now = Except.ok store' ∧
      store'.length = store.length ∧
      (∀ a ∈ store, a.id = alert_id →
        ({ a with is_active := 0, resolved_at := some now } : Alert) ∈ store') ∧
      (∀ a ∈ store, a.id ≠ alert_id → a ∈ store') ∧
      (∀ a' ∈ store', a'.id = alert_id →
        a'.is_active = 0 ∧ a'.resolved_at = some now) := by
  have hany : store.any (fun a => a.id = alert_id) = true := by
    rw [List.any_eq_true]
    obtain ⟨a, ha, hid⟩ := h
    exact ⟨a, ha, by simp [hid]⟩
  refine ⟨_, by unfold resolve_alert; rw [if_pos hany], List.length_map _ _, ?_, ?_, ?_⟩
  · intro a ha hid
    rw [List.mem_map]
    exact ⟨a, ha, by rw [if_pos hid]⟩
  · intro a ha hid
    rw [List.mem_map]
    exact ⟨a, ha, by rw [if_neg hid]⟩
  · intro a' ha' hid
    rw [List.mem_map] at ha'
    obtain ⟨a, ha, rfl⟩ := ha'
    by_cases hc : a.id = alert_id
    · rw [if_pos hc]
      exact ⟨rfl, rfl⟩
    · rw [if_neg hc] at hid ⊢
      exact absurd hid hc

/-- Witness for `resolve_alert_spec`: resolving the already-resolved
`alertResolvedEx` (id 1) at time 7. -/
theorem resolve_alert_spec_witness :
    (∃ a ∈ [alertResolvedEx], a.id = 1) ∧
    (∃ store', resolve_alert [alertResolvedEx] 1 7 = Except.ok store' ∧
      store'.length = [alertResolvedEx].length ∧
      (∀ a ∈ [alertResolvedEx], a.id = 1 →
        ({ a with is_active := 0, resolved_at := some 7 } : Alert) ∈ store') ∧
      (∀ a ∈ [alertResolvedEx], a.id ≠ 1 → a ∈ store') ∧
      (∀ a' ∈ store', a'.id = 1 → a'.is_active = 0 ∧ a'.resolved_at = some 7)) :=
  ⟨⟨alertResolvedEx, by simp [alertResolvedEx]⟩,
    resolve_alert_spec [alertResolvedEx] 1 7
      ⟨alertResolvedEx, by simp [alertResolvedEx]⟩⟩

theorem countActiveOfType_eq_zero (store : List Alert) (ty : String) :
    countActiveOfType store ty = 0 ↔ hasActiveAlertOfType store ty = false := by
  unfold countActiveOfType hasActiveAlertOfType
  rw [List.length_eq_zero, List.filter_eq_nil_iff]
  rw [← Bool.not_eq_true, List.any_eq_true]
  push_neg
  constructor
  · intro h x hx
    simpa using h x hx
  · intro h x hx
    simpa using h x hx

theorem countActiveOfType_append (s u : List Alert) (ty : String) :
    countActiveOfType (s ++ u) ty = countActiveOfType s ty + countActiveOfType u ty := by
  simp [countActiveOfType, List.filter_append]

theorem hasActive_of_countActive_ne_zero (store : List Alert) (ty : String)
    (h : countActiveOfType store ty ≠ 0) : hasActiveAlertOfType store ty = true := by
  rcases Bool.eq_false_or_eq_true (hasActiveAlertOfType store ty) with ht | hf
  · exact ht
  · exact absurd ((countActiveOfType_eq_zero store ty).mpr hf) h

theorem handleSpikeFindings_active (n t : ℕ) (fs : List SpikeFinding)
    (store : List Alert) (h : hasActiveAlertOfType store "spike" = true) :
    handleSpikeFindings n t fs store = store := by
  induction fs with
  | nil => rfl
  | cons f fs ih =>
    unfold handleSpikeFindings at ih ⊢
    rw [List.foldl_cons]
    rw [if_pos h]
    exact ih

theorem hasActive_append_spike (store : List Alert) (n t : ℕ) (f : SpikeFinding) :
    hasActiveAlertOfType (store ++ [create_spike_alert n t f]) "spike" = true := by
  unfold hasActiveAlertOfType create_spike_alert
  rw [List.any_append]
  simp

theorem handleSpikeFindings_creates (n t : ℕ) (f : SpikeFinding)
    (fs : List SpikeFinding) (store : List Alert)
    (h : hasActiveAlertOfType store "spike" = false) :
    handleSpikeFindings n t (f :: fs) store = store ++ [create_spike_alert n t f] := by
  unfold handleSpikeFindings
  rw [List.foldl_cons]
  rw [if_neg (by simp [h])]
  exact handleSpikeFindings_active n t fs _ (hasActive_append_spike store n t f)

theorem handleShiftFinding_form (n t : ℕ) (sh : ShiftResult) (store : List Alert) :
    handleShiftFinding n t sh store = store ∨
      handleShiftFinding n t sh store = store ++ [create_shift_alert n t sh.pctNegative] := by
  unfold handleShiftFinding
  split
  · exact Or.inr rfl
  · exact Or.inl rfl

theorem countActive_spike_shift_alert (n t : ℕ) (pct : ℚ) :
    countActiveOfType [create_shift_alert n t pct] "spike" = 0 := by
  simp [countActiveOfType, create_shift_alert, List.filter]

theorem countActive_spike_handleShift (n t : ℕ) (sh : ShiftResult) (store : List Alert) :
    countActiveOfType (handleShiftFinding n t sh store) "spike" =
      countActiveOfType store "spike" := by
  rcases handleShiftFinding_form n t sh store with h | h
  · rw [h]
  · rw [h, countActiveOfType_append, countActive_spike_shift_alert]
    omega

theorem countActive_spike_single (n t : ℕ) (f : SpikeFinding) :
    countActiveOfType [create_spike_alert n t f] "spike" = 1 := by
  simp [countActiveOfType, create_spike_alert, List.filter]

theorem run_alerts_mentions (sigma : ℚ) (wh n t : ℕ) (db : DBState) :
    (run_basic_alert_checks sigma wh n t db).mentions = db.mentions := rfl

theorem run_count_one (sigma : ℚ) (wh n t : ℕ) (db : DBState)
    (hfind : detect_spikes_db sigma wh t db.mentions ≠ [])
    (hactive : countActiveOfType db.alerts "spike" = 0) :
    countActiveOfType (run_basic_alert_checks sigma wh n t db).alerts "spike" = 1 := by
  obtain ⟨f, fs, hcons⟩ := List.exists_cons_of_ne_nil hfind
  unfold run_basic_alert_checks
  dsimp only
  rw [countActive_spike_handleShift, hcons,
    handleSpikeFindings_creates n t f fs db.alerts
      ((countActiveOfType_eq_zero _ _).mp hactive),
    countActiveOfType_append, hactive, countActive_spike_single]

theorem run_alerts_shape (sigma : ℚ) (wh n t : ℕ) (db : DBState)
    (hfind : detect_spikes_db sigma wh t db.mentions ≠ [])
    (hactive : countActiveOfType db.alerts "spike" = 0) :
    ∃ f rest, (run_basic_alert_checks sigma wh n t db).alerts =
      (db.alerts ++ [create_spike_alert n t f]) ++ rest ∧
      (∀ a ∈ rest, a.alert_type = "sentiment_shift") := by
  obtain ⟨f, fs, hcons⟩ := List.exists_cons_of_ne_nil hfind
  unfold run_basic_alert_checks
  dsimp only
  rw [hcons, handleSpikeFindings_creates _ _ f fs _
    ((countActiveOfType_eq_zero _ _).mp hactive)]
  rcases handleShiftFinding_form (n+1) t (detect_sentiment_shift_db wh t db.mentions)
      (db.alerts ++ [create_spike_alert n t f]) with h | h
  · exact ⟨f, [], by rw [h]; simp, by simp⟩
  · refine ⟨f, [create_shift_alert (n+1) t
      (detect_sentiment_shift_db wh t db.mentions).pctNegative], by rw [h], ?_⟩
    intro a ha
    simp only [List.mem_singleton] at ha
    subst ha
    rfl

theorem countActive_spike_zero_of_shift (l : List Alert)
    (h : ∀ a ∈ l, a.alert_type = "sentiment_shift") :
    countActiveOfType l "spike" = 0 := by
  unfold countActiveOfType
  rw [List.length_eq_zero, List.filter_eq_nil_iff]
  intro a ha
  simp [h a ha]

theorem run_preserves_count_one (sigma : ℚ) (wh n t : ℕ) (db : DBState)
    (h : countActiveOfType db.alerts "spike" = 1) :
    countActiveOfType (run_basic_alert_checks sigma wh n t db).alerts "spike" = 1 := by
  unfold run_basic_alert_checks
  dsimp only
  rw [countActive_spike_handleShift,
    handleSpikeFindings_active _ _ _ _
      (hasActive_of_countActive_ne_zero _ _ (by rw [h]; omega))]
  exact h

/-- C1: spike-alert deduplication (the missing `run_basic_alert_checks`
modelled from the spec). Starting from a store with no active spike
alert and a fresh autoincrement id, a detection cycle that finds a spike
leaves exactly one active Alert of type "spike"; a second cycle
re-detecting the same ongoing condition creates no duplicate (still
exactly one); and after that Alert is resolved, a further cycle that
re-detects the condition creates a new active spike Alert. -/
theorem alert_spike_dedup (sigma : ℚ) (wh n1 t1 n2 t2 n3 t3 tR : ℕ) (db : DBState)
    (hfind : detect_spikes_db sigma wh t1 db.mentions ≠ [])
    (hfind3 : detect_spikes_db sigma wh t3 db.mentions ≠ [])
    (hactive : countActiveOfType db.alerts "spike" = 0)
    (hfresh : ∀ a ∈ db.alerts, a.id ≠ n1) :
    countActiveOfType (run_basic_alert_checks sigma wh n1 t1 db).alerts "spike" = 1 ∧
    countActiveOfType (run_basic_alert_checks sigma wh n2 t2
        (run_basic_alert_checks sigma wh n1 t1 db)).alerts "spike" = 1 ∧
    ∃ alerts2,
      resolve_alert (run_basic_alert_checks sigma wh n1 t1 db).alerts n1 tR =
        Except.ok alerts2 ∧
      countActiveOfType alerts2 "spike" = 0 ∧
      countActiveOfType (run_basic_alert_checks sigma wh n3 t3
        { mentions := db.mentions, alerts := alerts2 }).alerts "spike" = 1 := by
  have h1 : countActiveOfType (run_basic_alert_checks sigma wh n1 t1 db).alerts "spike" = 1 :=
    run_count_one sigma wh n1 t1 db hfind hactive
  refine ⟨h1, run_preserves_count_one sigma wh n2 t2 _ h1, ?_⟩
  obtain ⟨f, rest, hshape, hrest⟩ := run_alerts_shape sigma wh n1 t1 db hfind hactive
  set A1 := (run_basic_alert_checks sigma wh n1 t1 db).alerts with hA1
  set r := fun a : Alert =>
    if a.id = n1 then { a with is_active := 0, resolved_at := some tR } else a with hr
  have hmem : create_spike_alert n1 t1 f ∈ A1 := by rw [hshape]; simp
  have hany : A1.any (fun a => a.id = n1) = true := by
    rw [List.any_eq_true]
    exact ⟨_, hmem, by simp [create_spike_alert]⟩
  have e1 : db.alerts.map r = db.alerts := by
    rw [show db.alerts.map r = db.alerts.map id from
      List.map_congr_left fun a ha => by simp [hr, hfresh a ha], List.map_id]
  have e2 : ([create_spike_alert n1 t1 f]).map r =
      [{ create_spike_alert n1 t1 f with is_active := 0, resolved_at := some tR }] := by
    simp [hr, create_spike_alert]
  have e3 : countActiveOfType (rest.map r) "spike" = 0 := by
    apply countActive_spike_zero_of_shift
    intro a ha
    rw [List.mem_map] at ha
    obtain ⟨b, hb, rfl⟩ := ha
    have : (r b).alert_type = b.alert_type := by
      rw [hr]; dsimp only; split <;> rfl
    rw [this]
    exact hrest b hb
  have hcount2 : countActiveOfType (A1.map r) "spike" = 0 := by
    rw [hshape, List.map_append, List.map_append, e1, e2,
      countActiveOfType_append, countActiveOfType_append, hactive, e3]
    simp [countActiveOfType, create_spike_alert, List.filter]
  refine ⟨A1.map r, ?_, hcount2, ?_⟩
  · unfold resolve_alert
    rw [if_pos hany]
  · exact run_count_one sigma wh n3 t3
      { mentions := db.mentions, alerts := A1.map r } hfind3 hcount2

theorem dbEx_spike : detect_spikes_db 0 24 24 dbEx.mentions ≠ [] := by
  norm_num [detect_spikes_db, dbEx, hourlyBuckets, mEx, List.dedup,
    List.insertionSort, List.orderedInsert, List.filter, detect_spikes,
    exceedsB, mean, varForStdev, sampleVar, sumSqDev, spikePct]
  simp

/-- Witness for `alert_spike_dedup` on the concrete database `dbEx`
(hourly counts 1 and 2, sigma = 0), with empty alert store. -/
theorem alert_spike_dedup_witness :
    detect_spikes_db 0 24 24 dbEx.mentions ≠ [] ∧
    countActiveOfType dbEx.alerts "spike" = 0 ∧
    countActiveOfType (run_basic_alert_checks 0 24 7 24 dbEx).alerts "spike" = 1 :=
  ⟨dbEx_spike, rfl,
    (alert_spike_dedup 0 24 7 24 8 25 9 24 30 dbEx dbEx_spike dbEx_spike
      rfl (by simp [dbEx])).1⟩

/-- C8: a run in which aggregation returned zero candidates is a no-op:
the pipeline returns immediately with the Mention and Alert tables
unchanged, does not invoke detection (`alertsRan = false`, zero new
alerts), and reports success with count 0 (status "ok" at the
endpoint). -/
theorem ingest_zero_candidates (scorer : SentScorer) (emodel : EmbModel)
    (parseTs : String → Option ℕ) (sigma : ℚ) (wh nextId now : ℕ)
    (commitOk : Bool) (db : DBState) :
    ingest_news_mentions scorer emodel parseTs sigma wh nextId now commitOk [] db =
      (db, Except.ok { count := 0, alertsRan := false }) ∧
    (ingest_news_mentions scorer emodel parseTs sigma wh nextId now commitOk [] db).1.mentions
      = db.mentions ∧
    (ingest_news_mentions scorer emodel parseTs sigma wh nextId now commitOk [] db).1.alerts
      = db.alerts ∧
    run_ingestion
      (ingest_news_mentions scorer emodel parseTs sigma wh nextId now commitOk [] db).2
      = Except.ok "ok" :=
  ⟨rfl, rfl, rfl, rfl⟩

/-- C2: for every ingestion run whose batch commit succeeds with at
least one persisted Mention, the pipeline synchronously invokes the
anomaly-detection + alerting step (`run_basic_alert_checks`) on the
committed state before returning, and reports the persisted count with
`alertsRan = true` — so the caller observes any fresh alerts immediately
after ingestion. -/
theorem ingest_commit_success (scorer : SentScorer) (emodel : EmbModel)
    (parseTs : String → Option ℕ) (sigma : ℚ) (wh nextId now : ℕ)
    (articles : List RawItem) (db : DBState)
    (h : articles.filterMap (enrich_item scorer emodel parseTs now) ≠ []) :
    ingest_news_mentions scorer emodel parseTs sigma wh nextId now true articles db =
      (run_basic_alert_checks sigma wh nextId now
        { db with mentions :=
            db.mentions ++ articles.filterMap (enrich_item scorer emodel parseTs now) },
       Except.ok
        { count := (articles.filterMap (enrich_item scorer emodel parseTs now)).length,
          alertsRan := true }) := by
  have hart : articles ≠ [] := by
    intro he
    subst he
    simp at h
  unfold ingest_news_mentions
  rw [if_neg hart]
  rw [if_neg (by simpa [List.length_eq_zero] using h)]
  rfl

/-- C6: persistence is all-or-nothing: when the store fails during the
batch commit, the entire batch is rolled back (the database, both
mentions and alerts, is exactly the initial one — no partial writes), no
detection or alerting runs for the batch, and the failure is reported to
the caller (a 500 "Ingestion failed" at the endpoint). -/
theorem ingest_commit_failure (scorer : SentScorer) (emodel : EmbModel)
    (parseTs : String → Option ℕ) (sigma : ℚ) (wh nextId now : ℕ)
    (articles : List RawItem) (db : DBState)
    (h : articles.filterMap (enrich_item scorer emodel parseTs now) ≠ []) :
    ingest_news_mentions scorer emodel parseTs sigma wh nextId now false articles db =
      (db, Except.error "commit failed") ∧
    run_ingestion
      (ingest_news_mentions scorer emodel parseTs sigma wh nextId now false articles db).2
      = Except.error "Ingestion failed" := by
  have hart : articles ≠ [] := by
    intro he
    subst he
    simp at h
  have he : ingest_news_mentions scorer emodel parseTs sigma wh nextId now false articles db =
      (db, Except.error "commit failed") := by
    unfold ingest_news_mentions
    rw [if_neg hart]
    rw [if_neg (by simpa [List.length_eq_zero] using h)]
    rfl
  exact ⟨he, by rw [he]; rfl⟩

theorem analyze_sentiment_error (f : String → Except String ModelOutput)
    (text : String) (e : String) (hfe : f (text.take 512) = Except.error e) :
    analyze_sentiment (some f) text = { sentiment := "neutral", confidence := 1/2 } := by
  unfold analyze_sentiment
  dsimp only
  rw [hfe]

theorem get_topic_error (g : String → Except String Unit) (text e : String)
    (h : g text = Except.error e) :
    get_topic_for_mention (some g) text = "uncategorized" := by
  unfold get_topic_for_mention
  dsimp only
  rw [h]

theorem get_topic_ok (g : String → Except String Unit) (text : String)
    (h : g text = Except.ok ()) :
    get_topic_for_mention (some g) text = "general" := by
  unfold get_topic_for_mention
  dsimp only
  rw [h]

theorem enrich_item_none (scorer : SentScorer) (emodel : EmbModel)
    (parseTs : String → Option ℕ) (now : ℕ) (it : RawItem)
    (hc : pyStrip (it.content.getD "") = "") :
    enrich_item scorer emodel parseTs now it = none := by
  unfold enrich_item
  rw [if_pos hc]

theorem enrich_item_eq_some (scorer : SentScorer) (emodel : EmbModel)
    (parseTs : String → Option ℕ) (now : ℕ) (it : RawItem) (m : Mention)
    (he : enrich_item scorer emodel parseTs now it = some m) :
    pyStrip (it.content.getD "") ≠ "" ∧
    m.sentiment = (analyze_sentiment scorer (pyStrip (it.content.getD ""))).sentiment ∧
    m.sentiment_score = (analyze_sentiment scorer (pyStrip (it.content.getD ""))).confidence ∧
    m.topic = get_topic_for_mention emodel (pyStrip (it.content.getD "")) := by
  unfold enrich_item at he
  by_cases hc : pyStrip (it.content.getD "") = ""
  · rw [if_pos hc] at he
    exact absurd he (by simp)
  · rw [if_neg hc] at he
    cases he
    exact ⟨hc, rfl, rfl, rfl⟩

/-- C7: enrichment is a total function (never raises); an item scored by
an unavailable (`none`) sentiment scorer, or on which the scorer's call
errors, falls back to sentiment "neutral" with confidence 0.5; an item
whose topic scorer is unavailable or errors falls back to topic
"uncategorized" — per item, independent of how the scorer behaves on
other items; and the number of enriched Mentions equals the number of
input candidates whose content is non-empty after stripping. -/
theorem enrichment_spec (scorer : SentScorer) (emodel : EmbModel)
    (parseTs : String → Option ℕ) (now : ℕ) (articles : List RawItem) :
    ((articles.filterMap (enrich_item scorer emodel parseTs now)).length =
      (articles.filter (fun i => pyStrip (i.content.getD "") ≠ "")).length) ∧
    (∀ m ∈ articles.filterMap (enrich_item none emodel parseTs now),
      m.sentiment = "neutral" ∧ m.sentiment_score = 1/2) ∧
    (∀ (f : String → Except String ModelOutput) (it : RawItem) (m : Mention),
      enrich_item (some f) emodel parseTs now it = some m →
      (∃ e, f ((pyStrip (it.content.getD "")).take 512) = Except.error e) →
      m.sentiment = "neutral" ∧ m.sentiment_score = 1/2) ∧
    (∀ m ∈ articles.filterMap (enrich_item scorer none parseTs now),
      m.topic = "uncategorized") ∧
    (∀ (g : String → Except String Unit) (it : RawItem) (m : Mention),
      enrich_item scorer (some g) parseTs now it = some m →
      (∃ e, g (pyStrip (it.content.getD "")) = Except.error e) →
      m.topic = "uncategorized") := by
  refine ⟨?_, ?_, ?_, ?_, ?_⟩
  · induction articles with
    | nil => rfl
    | cons it its ih =>
      by_cases hc : pyStrip (it.content.getD "") = ""
      · rw [List.filterMap_cons, List.filter_cons,
          enrich_item_none scorer emodel parseTs now it hc]
        simp [hc, ih]
      · rw [List.filterMap_cons, List.filter_cons]
        have hsome : enrich_item scorer emodel parseTs now it ≠ none := by
          unfold enrich_item
          rw [if_neg hc]
          simp
        obtain ⟨m, hm⟩ := Option.ne_none_iff_exists'.mp hsome
        rw [hm]
        simp [hc, ih]
  · intro m hm
    rw [List.mem_filterMap] at hm
    obtain ⟨it, _, he⟩ := hm
    obtain ⟨-, hs, hsc, -⟩ := enrich_item_eq_some none emodel parseTs now it m he
    exact ⟨hs, hsc⟩
  · intro f it m he hferr
    obtain ⟨e, hfe⟩ := hferr
    obtain ⟨-, hs, hsc, -⟩ := enrich_item_eq_some (some f) emodel parseTs now it m he
    constructor
    · rw [hs, analyze_sentiment_error f _ e hfe]
    · rw [hsc, analyze_sentiment_error f _ e hfe]
  · intro m hm
    rw [List.mem_filterMap] at hm
    obtain ⟨it, _, he⟩ := hm
    obtain ⟨-, -, -, ht⟩ := enrich_item_eq_some scorer none parseTs now it m he
    exact ht
  · intro g it m he hgerr
    obtain ⟨e, hge⟩ := hgerr
    obtain ⟨-, -, -, ht⟩ := enrich_item_eq_some scorer (some g) parseTs now it m he
    rw [ht, get_topic_error g _ e hge]

theorem get_topic_cases (emodel : EmbModel) (text : String) :
    get_topic_for_mention emodel text = "general" ∨
      get_topic_for_mention emodel text = "uncategorized" := by
  match emodel with
  | none => exact Or.inr rfl
  | some g =>
    cases hg : g text with
    | error e => exact Or.inr (get_topic_error g text e hg)
    | ok u =>
      cases u
      exact Or.inl (get_topic_ok g text hg)

/-- C10: the topic classifier returns the constant "general" whenever
the embedding model loaded successfully and encoding succeeds, and
"uncategorized" when the model is unavailable or errors; consequently
every Mention persisted by the ingestion pipeline has topic "general" or
"uncategorized" regardless of its content. -/
theorem topic_classification_spec :
    (∀ text, get_topic_for_mention none text = "uncategorized") ∧
    (∀ (g : String → Except String Unit) (text : String),
      (g text = Except.ok () → get_topic_for_mention (some g) text = "general") ∧
      (∀ e, g text = Except.error e →
        get_topic_for_mention (some g) text = "uncategorized")) ∧
    (∀ (scorer : SentScorer) (emodel : EmbModel) (parseTs : String → Option ℕ)
        (sigma : ℚ) (wh nextId now : ℕ) (commitOk : Bool)
        (articles : List RawItem) (db : DBState),
      ∀ m ∈ (ingest_news_mentions scorer emodel parseTs sigma wh nextId now
          commitOk articles db).1.mentions,
        m ∈ db.mentions ∨ m.topic = "general" ∨ m.topic = "uncategorized") := by
  refine ⟨fun _ => rfl, ?_, ?_⟩
  · intro g text
    exact ⟨get_topic_ok g text, fun e h => get_topic_error g text e h⟩
  · intro scorer emodel parseTs sigma wh nextId now commitOk articles db m hm
    unfold ingest_news_mentions at hm
    by_cases ha : articles = []
    · rw [if_pos ha] at hm
      exact Or.inl hm
    · rw [if_neg ha] at hm
      by_cases hz : (articles.filterMap (enrich_item scorer emodel parseTs now)).length = 0
      · rw [if_pos hz] at hm
        exact Or.inl hm
      · rw [if_neg hz] at hm
        cases commitOk with
        | false => exact Or.inl hm
        | true =>
          simp only [if_true] at hm
          have hm' : m ∈ db.mentions ++
              articles.filterMap (enrich_item scorer emodel parseTs now) := hm
          rw [List.mem_append] at hm'
          rcases hm' with h | h
          · exact Or.inl h
          · rw [List.mem_filterMap] at h
            obtain ⟨it, _, he⟩ := h
            obtain ⟨-, -, -, ht⟩ := enrich_item_eq_some scorer emodel parseTs now it m he
            rw [ht]
            exact Or.inr (get_topic_cases emodel _)

/-- Counterexample to C3 as stated: for bucket counts
`[10,10,10,10,10,10,100]` with sigma = 2.5 the 100-count bucket is NOT
flagged — `detect_spikes` returns no findings, because mean = 160/7,
sample stdev = √(8100/7) ≈ 34.02, and the threshold ≈ 107.9 exceeds
100. -/
theorem spike_example_not_flagged :
    detect_spikes (5/2) [(0,10),(1,10),(2,10),(3,10),(4,10),(5,10),(6,100)] = [] := by
  norm_num [detect_spikes, exceedsB, mean, varForStdev, sampleVar, sumSqDev,
    spikePct, List.filter]

theorem itemEx_enriches :
    [itemEx].filterMap (enrich_item none none (fun _ => none) 5) ≠ [] := by
  have hstrip : pyStrip "bad service" = "bad service" := by decide
  simp [List.filterMap_cons, enrich_item, itemEx, hstrip]

/-- Witness for `ingest_commit_success` on the concrete candidate
`itemEx` against an empty database. -/
theorem ingest_commit_success_witness :
    ([itemEx].filterMap (enrich_item none none (fun _ => none) 5) ≠ []) ∧
    ingest_news_mentions none none (fun _ => none) 0 24 3 5 true [itemEx]
        { mentions := [], alerts := [] } =
      (run_basic_alert_checks 0 24 3 5
        { mentions := [] ++ [itemEx].filterMap (enrich_item none none (fun _ => none) 5),
          alerts := [] },
       Except.ok
        { count := ([itemEx].filterMap (enrich_item none none (fun _ => none) 5)).length,
          alertsRan := true }) :=
  ⟨itemEx_enriches,
    ingest_commit_success none none (fun _ => none) 0 24 3 5 [itemEx]
      { mentions := [], alerts := [] } itemEx_enriches⟩

/-- Witness for `ingest_commit_failure` on the concrete candidate
`itemEx` against an empty database. -/
theorem ingest_commit_failure_witness :
    ([itemEx].filterMap (enrich_item none none (fun _ => none) 5) ≠ []) ∧
    ingest_news_mentions none none (fun _ => none) 0 24 3 5 false [itemEx]
        { mentions := [], alerts := [] } =
      ({ mentions := [], alerts := [] }, Except.error "commit failed") ∧
    run_ingestion
      (ingest_news_mentions none none (fun _ => none) 0 24 3 5 false [itemEx]
        { mentions := [], alerts := [] }).2 = Except.error "Ingestion failed" :=
  ⟨itemEx_enriches,
    (ingest_commit_failure none none (fun _ => none) 0 24 3 5 [itemEx]
      { mentions := [], alerts := [] } itemEx_enriches).1,
    (ingest_commit_failure none none (fun _ => none) 0 24 3 5 [itemEx]
      { mentions := [], alerts := [] } itemEx_enriches).2⟩

theorem itemEx_enrich_eq :
    enrich_item (some (fun _ : String => (Except.error "boom" : Except String ModelOutput)))
      none (fun _ => none) 5 itemEx = some mentionEx := by
  have hstrip : pyStrip "bad service" = "bad service" := by decide
  simp [enrich_item, itemEx, mentionEx, hstrip, analyze_sentiment,
    get_topic_for_mention, pyOr, truthy]

/-- Witness for `enrichment_spec`: the per-item fallback applied to the
concrete candidate `itemEx`, on which the sentiment scorer's call
errors: the enriched mention is exactly `mentionEx`, with sentiment
"neutral" and confidence 0.5. -/
theorem enrichment_spec_witness :
    (enrich_item (some (fun _ : String => (Except.error "boom" : Except String ModelOutput)))
        none (fun _ => none) 5 itemEx = some mentionEx) ∧
    (∃ e, (fun _ : String => (Except.error "boom" : Except String ModelOutput))
        ((pyStrip (itemEx.content.getD "")).take 512) = Except.error e) ∧
    mentionEx.sentiment = "neutral" ∧ mentionEx.sentiment_score = 1/2 :=
  ⟨itemEx_enrich_eq, ⟨"boom", rfl⟩,
    (enrichment_spec none none (fun _ => none) 5 [itemEx]).2.2.1
      (fun _ => Except.error "boom") itemEx mentionEx itemEx_enrich_eq
      ⟨"boom", rfl⟩⟩


/-- Witness for `topic_classification_spec`: a successfully encoding
model classifies the text "x" as "general". -/
theorem topic_classification_spec_witness :
    ((fun _ : String => (Except.ok () : Except String Unit)) "x" = Except.ok ()) ∧
    get_topic_for_mention (some (fun _ : String => (Except.ok () : Except String Unit)))
      "x" = "general" :=
  ⟨rfl, (topic_classification_spec.2.1 (fun _ => Except.ok ()) "x").1 rfl⟩

end BrandTracker
